import Mathlib

/-!
Verification development for the ja2025-tempvote backend.

The backend keeps all state in a `MemStorage` object holding four JS `Map`s
(zones, votes, temperatureHistory, activeConnections).  We embed each `Map`
as a list of records together with a key projection; `Map.set` is `mapSet`
(replace the entry carrying the key if present, else append) and `Map.get`
is `mapGet` (first entry carrying the key).  JS `Map` keys are unique, so
the lists of interest have `Nodup` key projections.

Timestamps (`new Date()`, `Date.now()`) are modelled as integer milliseconds
since the epoch, with the server clock at UTC, so that the route's
"floor the minutes to the nearest lower multiple of 10 and zero the
seconds/milliseconds" operation on a date equals flooring the epoch
millisecond value to a multiple of 600000 (`bucketKey`), and the ISO-string
minute-precision bucket keys are in bijection with these floored instants.
JS numbers on the code paths in question hold exact decimal values
(temperatures with one decimal, integer counts), modelled as `ℚ`;
`Math.round` is `jsRound` (floor of x + 1/2, i.e. round half toward +∞).
Fresh `randomUUID()` identifiers and the current time are passed to each
operation as explicit arguments.
-/

namespace TempVote

/-- Vote type after validation: `z.enum(['hot', 'cold'])`. -/
inductive VoteType where
  | hot
  | cold
deriving DecidableEq, Repr

/-- A zone record (shared/schema.ts `zones` table / storage `Zone`). -/
structure Zone where
  id : String
  name : String
  temperature : ℚ
  hotVotes : Int
  coldVotes : Int
  activeVoters : Int
  lastUpdated : Int
deriving DecidableEq, Repr

/-- A vote event (shared/schema.ts `votes` table / storage `Vote`). -/
structure Vote where
  id : String
  zoneId : String
  voteType : VoteType
  timestamp : Int
deriving DecidableEq, Repr

/-- A temperature-history sample (shared/schema.ts `temperatureHistory`). -/
structure TemperatureHistoryEntry where
  id : String
  zoneId : String
  temperature : ℚ
  timestamp : Int
deriving DecidableEq, Repr

/-- An active-connection record (shared/schema.ts `activeConnections`). -/
structure ActiveConnection where
  id : String
  sessionId : String
  lastSeen : Int
deriving DecidableEq, Repr

/-- A parsed vote request (`voteRequestSchema` output / `InsertVote`). -/
structure VoteRequest where
  zoneId : String
  voteType : VoteType
deriving DecidableEq, Repr

/-- A raw `POST /api/vote` body before zod validation: each field may be
absent, and `voteType` is an arbitrary string. -/
structure RawVoteRequest where
  zoneId : Option String
  voteType : Option String
deriving DecidableEq, Repr

/-- `voteType` leg of `voteRequestSchema`: `z.enum(['hot', 'cold'])`. -/
def parseVoteType (s : String) : Option VoteType :=
  if s = "hot" then some VoteType.hot
  else if s = "cold" then some VoteType.cold
  else none

/-- `voteRequestSchema.parse`: requires `zoneId` (a string) and a
`voteType` among `hot`/`cold`; anything else throws a `ZodError`,
modelled as `none`. -/
def voteRequestParse (r : RawVoteRequest) : Option VoteRequest :=
  match r.zoneId with
  | none => none
  | some zid =>
    match r.voteType with
    | none => none
    | some ts =>
      match parseVoteType ts with
      | none => none
      | some vt => some { zoneId := zid, voteType := vt }

/-- JS `Map.set k v` on an association list with key projection `key`:
replace the entry carrying the key if present, else append at the end
(JS `Map` preserves insertion order and appends new keys). -/
def mapSet {α : Type} (l : List α) (key : α → String) (k : String) (v : α) : List α :=
  if l.any (fun x => key x = k) then l.map (fun x => if key x = k then v else x)
  else l ++ [v]

/-- JS `Map.get k`: the entry carrying the key, if any. -/
def mapGet {α : Type} (l : List α) (key : α → String) (k : String) : Option α :=
  l.find? (fun x => key x = k)

/-- JS `Map.delete k`: drop the entry carrying the key. -/
def mapDelete {α : Type} (l : List α) (key : α → String) (k : String) : List α :=
  l.filter (fun x => !(key x = k))

/-- The whole in-memory storage (`MemStorage` fields). -/
structure MemStorage where
  zones : List Zone
  votes : List Vote
  temperatureHistory : List TemperatureHistoryEntry
  activeConnections : List ActiveConnection
deriving DecidableEq, Repr

/-- `MemStorage.getZone`: `this.zones.get(id)`. -/
def getZone (s : MemStorage) (id : String) : Option Zone :=
  mapGet s.zones (fun z => z.id) id

/-- `MemStorage.getRecentVotesByZone`: votes of the zone with
`timestamp >= now - minutes*60*1000`. -/
def getRecentVotesByZone (s : MemStorage) (zoneId : String) (minutes : Int) (now : Int) :
    List Vote :=
  s.votes.filter (fun v => v.zoneId = zoneId ∧ now - minutes * 60000 ≤ v.timestamp)

/-- `MemStorage.getRecentVoteCounts`: partition the recent votes by type
and return (hot count, cold count). -/
def getRecentVoteCounts (s : MemStorage) (zoneId : String) (minutes : Int) (now : Int) :
    Nat × Nat :=
  let recentVotes := getRecentVotesByZone s zoneId minutes now
  ((recentVotes.filter (fun v => v.voteType = VoteType.hot)).length,
   (recentVotes.filter (fun v => v.voteType = VoteType.cold)).length)

/-- `MemStorage.createVote`: build the vote with a fresh id and the current
time and `Map.set` it into the vote ledger. -/
def createVote (s : MemStorage) (insertVote : VoteRequest) (freshId : String) (now : Int) :
    Vote × MemStorage :=
  let vote : Vote :=
    { id := freshId, zoneId := insertVote.zoneId,
      voteType := insertVote.voteType, timestamp := now }
  (vote, { s with votes := mapSet s.votes (fun v => v.id) freshId vote })

/-- `MemStorage.updateZoneTemperature`: overwrite the zone's temperature and
`lastUpdated`; `undefined` when the zone is unknown. -/
def updateZoneTemperature (s : MemStorage) (id : String) (temperature : ℚ) (now : Int) :
    Option Zone × MemStorage :=
  match getZone s id with
  | none => (none, s)
  | some zone =>
    let updatedZone : Zone := { zone with temperature := temperature, lastUpdated := now }
    (some updatedZone, { s with zones := mapSet s.zones (fun z => z.id) id updatedZone })

/-- `MemStorage.updateZoneVotes`: overwrite the zone's stored vote counters.
Declared on the storage interface; the routes never invoke it. -/
def updateZoneVotes (s : MemStorage) (id : String) (hotVotes coldVotes : Int) (now : Int) :
    Option Zone × MemStorage :=
  match getZone s id with
  | none => (none, s)
  | some zone =>
    let updatedZone : Zone :=
      { zone with hotVotes := hotVotes, coldVotes := coldVotes, lastUpdated := now }
    (some updatedZone, { s with zones := mapSet s.zones (fun z => z.id) id updatedZone })

/-- `MemStorage.addTemperatureHistory`. -/
def addTemperatureHistory (s : MemStorage) (zoneId : String) (temperature : ℚ)
    (freshId : String) (now : Int) : TemperatureHistoryEntry × MemStorage :=
  let history : TemperatureHistoryEntry :=
    { id := freshId, zoneId := zoneId, temperature := temperature, timestamp := now }
  (history,
   { s with temperatureHistory :=
      mapSet s.temperatureHistory (fun h => h.id) freshId history })

/-- `MemStorage.updateConnection`: find the record with this `sessionId`
among the values; refresh its `lastSeen` under its existing map key, or
insert a brand-new record under a fresh id. -/
def updateConnection (s : MemStorage) (sessionId : String) (freshId : String) (now : Int) :
    ActiveConnection × MemStorage :=
  match s.activeConnections.find? (fun c => c.sessionId = sessionId) with
  | some existing =>
    let updated : ActiveConnection := { existing with lastSeen := now }
    (updated,
     { s with activeConnections :=
        mapSet s.activeConnections (fun c => c.id) existing.id updated })
  | none =>
    let connection : ActiveConnection := { id := freshId, sessionId := sessionId, lastSeen := now }
    (connection,
     { s with activeConnections :=
        mapSet s.activeConnections (fun c => c.id) freshId connection })

/-- `MemStorage.cleanupOldConnections`: collect the map keys of every record
with `lastSeen < now - minutes*60*1000`, then delete each collected key. -/
def cleanupOldConnections (s : MemStorage) (minutes : Int) (now : Int) : MemStorage :=
  let cutoff := now - minutes * 60000
  let toRemove :=
    (s.activeConnections.filter (fun c => c.lastSeen < cutoff)).map (fun c => c.id)
  { s with activeConnections :=
      toRemove.foldl (fun l id => mapDelete l (fun c => c.id) id) s.activeConnections }

/-- `MemStorage.initializeDefaultZones`: the five seeded zones (creation
time passed explicitly). -/
def initializeDefaultZones (now : Int) : List Zone :=
  [ { id := "standing", name := "1F Standing Area", temperature := 22.3,
      hotVotes := 0, coldVotes := 0, activeVoters := 0, lastUpdated := now },
    { id := "zone-a", name := "1F Zone A", temperature := 21.8,
      hotVotes := 0, coldVotes := 0, activeVoters := 0, lastUpdated := now },
    { id := "zone-b", name := "1F Zone B", temperature := 22.7,
      hotVotes := 0, coldVotes := 0, activeVoters := 0, lastUpdated := now },
    { id := "zone-c", name := "2F Zone C", temperature := 21.5,
      hotVotes := 0, coldVotes := 0, activeVoters := 0, lastUpdated := now },
    { id := "recharge", name := "2F Recharge Zone", temperature := 23.1,
      hotVotes := 0, coldVotes := 0, activeVoters := 0, lastUpdated := now } ]

/-- The storage as the constructor leaves it (timers aside). -/
def initialStorage (now : Int) : MemStorage :=
  { zones := initializeDefaultZones now, votes := [],
    temperatureHistory := [], activeConnections := [] }

/-- Route outcome: the JSON body on success, or the error status the
handler sends (`400 Invalid vote data`, `404 Zone not found`). -/
inductive ApiResponse (α : Type) where
  | ok (body : α)
  | badRequest
  | notFound
deriving DecidableEq, Repr

/-- `Math.round`: round half toward +∞. -/
def jsRound (q : ℚ) : Int := ⌊q + 1 / 2⌋

/-- The `POST /api/vote` handler (routes.ts).  `sessionId` is the
`x-session-id` header (or the generated UUID); `connId`, `voteId`,
`histId` are the fresh UUIDs the three storage inserts may consume.  The
response body is the `{...updatedZone, hotVotes, coldVotes}` object. -/
def postVote (s : MemStorage) (body : RawVoteRequest)
    (sessionId connId voteId histId : String) (now : Int) :
    ApiResponse (Option Zone × Nat × Nat) × MemStorage :=
  match voteRequestParse body with
  | none => (ApiResponse.badRequest, s)
  | some validatedData =>
    match getZone s validatedData.zoneId with
    | none => (ApiResponse.notFound, s)
    | some _zone =>
      let s1 := (updateConnection s sessionId connId now).2
      let s2 := (createVote s1 validatedData voteId now).2
      let recentVotes := getRecentVoteCounts s2 validatedData.zoneId 10 now
      let voteDifference : ℚ := (recentVotes.1 : ℚ) - (recentVotes.2 : ℚ)
      let baseTemperature : ℚ := 22
      let temperatureAdjustment : ℚ := voteDifference * 0.1
      let newTemperature : ℚ := (jsRound ((baseTemperature + temperatureAdjustment) * 10) : ℚ) / 10
      let s3 := (updateZoneTemperature s2 validatedData.zoneId newTemperature now).2
      let s4 := (addTemperatureHistory s3 validatedData.zoneId newTemperature histId now).2
      (ApiResponse.ok (getZone s4 validatedData.zoneId, recentVotes), s4)

/-- The `GET /api/zones` handler (routes.ts): touch the connection
tracker, then answer with every zone overlaid with its 10-minute recency
counts.  The stored zones are not written. -/
def getZonesHandler (s : MemStorage) (sessionId connId : String) (now : Int) :
    List Zone × MemStorage :=
  let s1 := (updateConnection s sessionId connId now).2
  let zones := s1.zones
  (zones.map (fun zone =>
    let recentVotes := getRecentVoteCounts s1 zone.id 10 now
    { zone with hotVotes := (recentVotes.1 : Int), coldVotes := (recentVotes.2 : Int) }), s1)

/-- Start of the 10-minute bucket containing `t`: minutes floored to the
nearest lower multiple of 10, seconds and milliseconds zeroed. -/
def bucketKey (t : Int) : Int := t - t % 600000

/-- `parseInt(req.query.hours) || 6`: `none` stands for a missing or
non-numeric parameter (`parseInt` gives `NaN`); `0` is falsy, so both
fall back to the default of 6. -/
def parsedHours (hoursQuery : Option Int) : Int :=
  match hoursQuery with
  | none => 6
  | some n => if n = 0 then 6 else n

/-- The `intervalData` map of the vote-history handler, as a total
function from bucket key to accumulated (hot, cold) counts, defaulting to
`(0, 0)` (`intervalData.get(key) || \x7b hot: 0, cold: 0 \x7d`). -/
def intervalData (vs : List Vote) : Int → Nat × Nat :=
  vs.foldl (fun m v =>
    let k := bucketKey v.timestamp
    fun k2 => if k2 = k then
        (match v.voteType with
         | VoteType.hot => ((m k).1 + 1, (m k).2)
         | VoteType.cold => ((m k).1, (m k).2 + 1))
      else m k2)
    (fun _ => (0, 0))

/-- One entry of the vote-history response. -/
structure VoteHistoryBucket where
  timestamp : Int
  hotVotes : Nat
  coldVotes : Nat
deriving DecidableEq, Repr

/-- The series loop of the vote-history handler: for
`i = totalIntervals-1` down to `0`, push the bucket at `now - i*10min`
(floored to the grid) with the accumulated counts, else zeros.  The `j`-th
pushed entry corresponds to `i = totalIntervals - 1 - j`. -/
def buildSeries (s : MemStorage) (zoneId : String) (hours : Int) (now : Int) :
    List VoteHistoryBucket :=
  let allVotes := getRecentVotesByZone s zoneId (hours * 60) now
  let data := intervalData allVotes
  let totalIntervals := (hours * 6).toNat
  (List.range totalIntervals).map (fun j =>
    let i := totalIntervals - 1 - j
    let intervalStart := bucketKey (now - (i : Int) * 600000)
    { timestamp := intervalStart,
      hotVotes := (data intervalStart).1,
      coldVotes := (data intervalStart).2 })

/-- The `GET /api/zones/:id/vote-history` handler (routes.ts).  It never
consults the zone table: it always answers 200 with the series. -/
def voteHistoryHandler (s : MemStorage) (zoneId : String) (hoursQuery : Option Int)
    (now : Int) : ApiResponse (List VoteHistoryBucket) :=
  ApiResponse.ok (buildSeries s zoneId (parsedHours hoursQuery) now)

/-! ### Generic facts about the `Map` model and state projections -/

lemma self_mem_mapSet {α : Type} (l : List α) (key : α → String) (k : String) (v : α) :
    v ∈ mapSet l key k v := by
  unfold mapSet
  by_cases h : l.any (fun x => key x = k)
  · simp only [h, if_true]
    rcases List.any_eq_true.mp h with ⟨x, hx, hxk⟩
    refine List.mem_map.mpr ⟨x, hx, ?_⟩
    simp only [decide_eq_true_eq] at hxk
    simp [hxk]
  · simp only [h, if_false]
    simp

lemma find?_mapSet {α : Type} (l : List α) (key : α → String) (k : String) (v : α)
    (hv : key v = k) (hex : (l.find? (fun x => key x = k)).isSome) :
    (mapSet l key k v).find? (fun x => key x = k) = some v := by
  unfold mapSet
  have hany : l.any (fun x => key x = k) = true := by
    rcases Option.isSome_iff_exists.mp hex with ⟨x, hx⟩
    have hxk := List.find?_some hx
    exact List.any_eq_true.mpr ⟨x, List.mem_of_find?_eq_some hx, hxk⟩
  simp only [hany, if_true]
  rw [List.find?_map]
  have hpred : (fun x => decide (key ((fun x => if key x = k then v else x) x) = k))
      = (fun x => decide (key x = k)) := by
    funext x
    by_cases hxk : key x = k <;> simp [hxk, hv]
  simp only [Function.comp_def]
  rw [hpred]
  rcases Option.isSome_iff_exists.mp hex with ⟨x, hx⟩
  rw [hx]
  have hxk : key x = k := by simpa using List.find?_some hx
  simp [Option.map_some, hxk]

lemma updateConnection_zones (s : MemStorage) (sessionId freshId : String) (now : Int) :
    ((updateConnection s sessionId freshId now).2).zones = s.zones := by
  unfold updateConnection
  cases s.activeConnections.find? (fun c => c.sessionId = sessionId) <;> rfl

lemma updateConnection_votes (s : MemStorage) (sessionId freshId : String) (now : Int) :
    ((updateConnection s sessionId freshId now).2).votes = s.votes := by
  unfold updateConnection
  cases s.activeConnections.find? (fun c => c.sessionId = sessionId) <;> rfl

lemma updateZoneTemperature_votes (s : MemStorage) (id : String) (temperature : ℚ)
    (now : Int) : ((updateZoneTemperature s id temperature now).2).votes = s.votes := by
  unfold updateZoneTemperature
  cases getZone s id <;> rfl

lemma getZone_congr (s s' : MemStorage) (h : s.zones = s'.zones) (id : String) :
    getZone s id = getZone s' id := by
  unfold getZone mapGet
  rw [h]

lemma getRecentVoteCounts_congr {s s' : MemStorage} (h : s.votes = s'.votes)
    (zoneId : String) (minutes now : Int) :
    getRecentVoteCounts s zoneId minutes now = getRecentVoteCounts s' zoneId minutes now := by
  unfold getRecentVoteCounts getRecentVotesByZone
  rw [h]

/-! ### C3 / C4: rejected submissions leave the state untouched -/

/-- C3.  A vote whose body validates but whose `zoneId` names no existing
zone is answered 404 and the storage is returned exactly as it was: no
vote event, no temperature write, no temperature-history sample, no
connection-tracker update. -/
theorem postVote_unknown_zone_no_mutation (s : MemStorage) (body : RawVoteRequest)
    (sessionId connId voteId histId : String) (now : Int) (req : VoteRequest)
    (hparse : voteRequestParse body = some req)
    (hzone : getZone s req.zoneId = none) :
    postVote s body sessionId connId voteId histId now = (ApiResponse.notFound, s) := by
  simp only [postVote, hparse, hzone]

/-- C3 witness: voting for zone id `nope` against the seeded storage. -/
theorem postVote_unknown_zone_no_mutation_witness :
    postVote (initialStorage 0) { zoneId := some "nope", voteType := some "hot" }
      "sess" "conn" "vote" "hist" 1000000 = (ApiResponse.notFound, initialStorage 0) :=
  postVote_unknown_zone_no_mutation (initialStorage 0)
    { zoneId := some "nope", voteType := some "hot" } "sess" "conn" "vote" "hist" 1000000
    { zoneId := "nope", voteType := VoteType.hot } (by decide) (by decide)

/-- C4.  A vote body that fails schema validation (missing `zoneId`,
missing `voteType`, or a `voteType` outside hot/cold such as `warm`) is
answered 400 and the storage is returned exactly as it was. -/
theorem postVote_invalid_body_no_mutation (s : MemStorage) (body : RawVoteRequest)
    (sessionId connId voteId histId : String) (now : Int)
    (hbad : body.zoneId = none ∨ body.voteType = none ∨
      ∃ t, body.voteType = some t ∧ t ≠ "hot" ∧ t ≠ "cold") :
    postVote s body sessionId connId voteId histId now = (ApiResponse.badRequest, s) := by
  have hp : voteRequestParse body = none := by
    obtain ⟨zid, vt⟩ := body
    rcases hbad with h | h | ⟨t, ht, h1, h2⟩
    · simp only at h
      subst h
      rfl
    · simp only at h
      subst h
      cases zid <;> rfl
    · simp only at ht
      subst ht
      cases zid
      · rfl
      · simp [voteRequestParse, parseVoteType, h1, h2]
  simp only [postVote, hp]

/-- C4 witness: `voteType = "warm"` against the seeded storage. -/
theorem postVote_invalid_body_no_mutation_witness :
    postVote (initialStorage 0) { zoneId := some "zone-a", voteType := some "warm" }
      "sess" "conn" "vote" "hist" 1000000 = (ApiResponse.badRequest, initialStorage 0) :=
  postVote_invalid_body_no_mutation (initialStorage 0)
    { zoneId := some "zone-a", voteType := some "warm" } "sess" "conn" "vote" "hist" 1000000
    (Or.inr (Or.inr ⟨"warm", rfl, by decide, by decide⟩))

/-! ### C9: the hours parameter falls back to 6 -/

/-- C9.  A vote-history request with `hours=0` or a non-numeric/missing
`hours` parameter uses the default of 6 hours, so the response always has
36 buckets — never zero. -/
theorem voteHistory_hours_defaulted (s : MemStorage) (zoneId : String)
    (hoursQuery : Option Int) (now : Int)
    (hq : hoursQuery = none ∨ hoursQuery = some 0) :
    ∃ series, voteHistoryHandler s zoneId hoursQuery now = ApiResponse.ok series ∧
      series.length = 36 ∧ 0 < series.length := by
  have hh : parsedHours hoursQuery = 6 := by
    rcases hq with h | h <;> simp [h, parsedHours]
  refine ⟨_, rfl, ?_, ?_⟩ <;>
    simp [buildSeries, hh, List.length_map, List.length_range]

/-- C9 witness: missing `hours` on the seeded storage gives 36 buckets. -/
theorem voteHistory_hours_defaulted_witness :
    ∃ series, voteHistoryHandler (initialStorage 0) "zone-a" none 1000000
        = ApiResponse.ok series ∧ series.length = 36 ∧ 0 < series.length :=
  voteHistory_hours_defaulted (initialStorage 0) "zone-a" none 1000000 (Or.inl rfl)

/-! ### C1 / C8 / C10: the vote-history grid -/

lemma bucketKey_shift (t k : Int) : bucketKey (t - k * 600000) = bucketKey t - k * 600000 := by
  have h : (t - k * 600000) % 600000 = t % 600000 := by
    have h2 : t - k * 600000 = t + 600000 * (-k) := by ring
    rw [h2, Int.add_mul_emod_self_left]
  unfold bucketKey
  omega

lemma buildSeries_length (s : MemStorage) (zoneId : String) (hours now : Int) :
    (buildSeries s zoneId hours now).length = (hours * 6).toNat := by
  simp [buildSeries]

lemma buildSeries_get (s : MemStorage) (zoneId : String) (hours now : Int) (j : Nat)
    (hj : j < (buildSeries s zoneId hours now).length) :
    (buildSeries s zoneId hours now).get ⟨j, hj⟩ =
      { timestamp := bucketKey (now - (((hours * 6).toNat - 1 - j : Nat) : Int) * 600000),
        hotVotes := (intervalData (getRecentVotesByZone s zoneId (hours * 60) now)
          (bucketKey (now - (((hours * 6).toNat - 1 - j : Nat) : Int) * 600000))).1,
        coldVotes := (intervalData (getRecentVotesByZone s zoneId (hours * 60) now)
          (bucketKey (now - (((hours * 6).toNat - 1 - j : Nat) : Int) * 600000))).2 } := by
  simp [buildSeries, List.get_eq_getElem, List.getElem_map, List.getElem_range]

/-- C1.  For every zone id and every positive `hours`, the vote-history
handler answers with exactly `hours*6` entries, consecutive bucket-start
timestamps exactly 10 minutes (600000 ms) apart — so strictly increasing,
no gaps, no duplicates — and the last entry is the start of the 10-minute
bucket containing `now`. -/
theorem voteHistory_grid_exact (s : MemStorage) (zoneId : String) (hours now : Int)
    (hp : 0 < hours) :
    ∃ series, voteHistoryHandler s zoneId (some hours) now = ApiResponse.ok series ∧
      (series.length : Int) = hours * 6 ∧
      (∀ j : Nat, ∀ hj : j + 1 < series.length,
        (series.get ⟨j + 1, hj⟩).timestamp
          = (series.get ⟨j, Nat.lt_of_succ_lt hj⟩).timestamp + 600000) ∧
      ∃ last, series.getLast? = some last ∧ last.timestamp = bucketKey now ∧
        bucketKey now ≤ now ∧ now < bucketKey now + 600000 := by
  have hhours : parsedHours (some hours) = hours := by
    have h2 : parsedHours (some hours) = if hours = 0 then 6 else hours := rfl
    rw [h2, if_neg (by omega)]
  have hq : voteHistoryHandler s zoneId (some hours) now
      = ApiResponse.ok (buildSeries s zoneId hours now) := by
    unfold voteHistoryHandler
    rw [hhours]
  have hN : ((hours * 6).toNat : Int) = hours * 6 := Int.toNat_of_nonneg (by omega)
  have hlen := buildSeries_length s zoneId hours now
  have hpos : 0 < (buildSeries s zoneId hours now).length := by omega
  refine ⟨buildSeries s zoneId hours now, hq, by omega, ?_, ?_⟩
  · intro j hj
    rw [buildSeries_get, buildSeries_get]
    simp only [bucketKey_shift]
    rw [hlen] at hj
    omega
  · refine ⟨(buildSeries s zoneId hours now).get
      ⟨(buildSeries s zoneId hours now).length - 1, by omega⟩, ?_, ?_, ?_, ?_⟩
    · rw [List.getLast?_eq_getElem?, List.getElem?_eq_getElem (by omega)]
      simp [List.get_eq_getElem]
    · rw [buildSeries_get]
      have h0 : ((hours * 6).toNat - 1 - ((buildSeries s zoneId hours now).length - 1) : Nat)
          = 0 := by omega
      rw [h0]
      simp
    · unfold bucketKey
      omega
    · unfold bucketKey
      omega

/-- C1 witness: one hour of history on the seeded storage. -/
theorem voteHistory_grid_exact_witness :
    ∃ series, voteHistoryHandler (initialStorage 0) "zone-a" (some 1) 1234567
        = ApiResponse.ok series ∧
      (series.length : Int) = 1 * 6 ∧
      (∀ j : Nat, ∀ hj : j + 1 < series.length,
        (series.get ⟨j + 1, hj⟩).timestamp
          = (series.get ⟨j, Nat.lt_of_succ_lt hj⟩).timestamp + 600000) ∧
      ∃ last, series.getLast? = some last ∧ last.timestamp = bucketKey 1234567 ∧
        bucketKey 1234567 ≤ 1234567 ∧ 1234567 < bucketKey 1234567 + 600000 :=
  voteHistory_grid_exact (initialStorage 0) "zone-a" 1 1234567 (by decide)

lemma buildSeries_all_zero (s : MemStorage) (zoneId : String) (hours now : Int)
    (hempty : ∀ v ∈ s.votes, ¬(v.zoneId = zoneId ∧ now - hours * 60 * 60000 ≤ v.timestamp)) :
    ∀ b ∈ buildSeries s zoneId hours now, b.hotVotes = 0 ∧ b.coldVotes = 0 := by
  have hnil : getRecentVotesByZone s zoneId (hours * 60) now = [] := by
    rw [getRecentVotesByZone, List.filter_eq_nil_iff]
    intro v hv
    simpa using hempty v hv
  intro b hb
  unfold buildSeries at hb
  rw [hnil] at hb
  rcases List.mem_map.mp hb with ⟨j, _, rfl⟩
  exact ⟨rfl, rfl⟩

/-- C8.  When no vote event of the zone falls within the last `hours*60`
minutes, the handler still answers with `hours*6` buckets, every one of
them carrying zero hot and zero cold votes. -/
theorem voteHistory_no_recent_votes_zero (s : MemStorage) (zoneId : String)
    (hours now : Int) (hp : 0 < hours)
    (hempty : ∀ v ∈ s.votes, v.zoneId = zoneId → v.timestamp < now - hours * 60 * 60000) :
    ∃ series, voteHistoryHandler s zoneId (some hours) now = ApiResponse.ok series ∧
      (series.length : Int) = hours * 6 ∧
      ∀ b ∈ series, b.hotVotes = 0 ∧ b.coldVotes = 0 := by
  have hhours : parsedHours (some hours) = hours := by
    have h2 : parsedHours (some hours) = if hours = 0 then 6 else hours := rfl
    rw [h2, if_neg (by omega)]
  have hq : voteHistoryHandler s zoneId (some hours) now
      = ApiResponse.ok (buildSeries s zoneId hours now) := by
    unfold voteHistoryHandler
    rw [hhours]
  have hN : ((hours * 6).toNat : Int) = hours * 6 := Int.toNat_of_nonneg (by omega)
  have hlen := buildSeries_length s zoneId hours now
  refine ⟨buildSeries s zoneId hours now, hq, by omega, ?_⟩
  refine buildSeries_all_zero s zoneId hours now ?_
  intro v hv hmatch
  exact absurd hmatch.2 (by have := hempty v hv hmatch.1; omega)

/-- C8 witness: a fresh seeded storage has no votes at all. -/
theorem voteHistory_no_recent_votes_zero_witness :
    ∃ series, voteHistoryHandler (initialStorage 0) "zone-a" (some 2) 9999999
        = ApiResponse.ok series ∧
      (series.length : Int) = 2 * 6 ∧
      ∀ b ∈ series, b.hotVotes = 0 ∧ b.coldVotes = 0 :=
  voteHistory_no_recent_votes_zero (initialStorage 0) "zone-a" 2 9999999 (by decide)
    (by intro v hv; simp [initialStorage] at hv)

/-- C10.  The vote-history handler never checks that the zone exists:
for an unknown zone id (in a storage whose vote ledger only references
existing zones) it still answers 200 with the full `hours*6` series, all
counts zero — not 404. -/
theorem voteHistory_unknown_zone_ok (s : MemStorage) (zoneId : String)
    (hours now : Int) (hp : 0 < hours)
    (hz : getZone s zoneId = none)
    (hri : ∀ v ∈ s.votes, (getZone s v.zoneId).isSome) :
    ∃ series, voteHistoryHandler s zoneId (some hours) now = ApiResponse.ok series ∧
      (series.length : Int) = hours * 6 ∧
      ∀ b ∈ series, b.hotVotes = 0 ∧ b.coldVotes = 0 := by
  have hhours : parsedHours (some hours) = hours := by
    have h2 : parsedHours (some hours) = if hours = 0 then 6 else hours := rfl
    rw [h2, if_neg (by omega)]
  have hq : voteHistoryHandler s zoneId (some hours) now
      = ApiResponse.ok (buildSeries s zoneId hours now) := by
    unfold voteHistoryHandler
    rw [hhours]
  have hN : ((hours * 6).toNat : Int) = hours * 6 := Int.toNat_of_nonneg (by omega)
  have hlen := buildSeries_length s zoneId hours now
  refine ⟨buildSeries s zoneId hours now, hq, by omega, ?_⟩
  refine buildSeries_all_zero s zoneId hours now ?_
  intro v hv hmatch
  have := hri v hv
  rw [hmatch.1, hz] at this
  simp at this

/-- C10 witness: unknown zone id `ghost` against the seeded storage. -/
theorem voteHistory_unknown_zone_ok_witness :
    ∃ series, voteHistoryHandler (initialStorage 0) "ghost" (some 1) 777777
        = ApiResponse.ok series ∧
      (series.length : Int) = 1 * 6 ∧
      ∀ b ∈ series, b.hotVotes = 0 ∧ b.coldVotes = 0 :=
  voteHistory_unknown_zone_ok (initialStorage 0) "ghost" 1 777777 (by decide)
    (by decide) (by intro v hv; simp [initialStorage] at hv)

/-! ### C2: the temperature written by an accepted vote -/

lemma createVote_zones (s : MemStorage) (insertVote : VoteRequest) (freshId : String)
    (now : Int) : ((createVote s insertVote freshId now).2).zones = s.zones := rfl

lemma addTemperatureHistory_zones (s : MemStorage) (zoneId : String) (temperature : ℚ)
    (freshId : String) (now : Int) :
    ((addTemperatureHistory s zoneId temperature freshId now).2).zones = s.zones := rfl

lemma addTemperatureHistory_votes (s : MemStorage) (zoneId : String) (temperature : ℚ)
    (freshId : String) (now : Int) :
    ((addTemperatureHistory s zoneId temperature freshId now).2).votes = s.votes := rfl

lemma getZone_updateZoneTemperature (s : MemStorage) (id : String) (temperature : ℚ)
    (now : Int) (zone : Zone) (hz : getZone s id = some zone) :
    getZone ((updateZoneTemperature s id temperature now).2) id
      = some { zone with temperature := temperature, lastUpdated := now } := by
  have hz' : s.zones.find? (fun z => decide (z.id = id)) = some zone := hz
  have hid : zone.id = id := by
    have := List.find?_some hz'
    simpa using this
  have hsome : (s.zones.find? (fun z => decide (z.id = id))).isSome := by
    rw [hz']
    rfl
  simp only [updateZoneTemperature, hz]
  unfold getZone mapGet
  exact find?_mapSet s.zones (fun z => z.id) id _ (by simp [hid]) hsome

/-- The rounding step of the vote handler is the identity here: the value
`(22 + diff*0.1) * 10` is the integer `220 + hot - cold`, so `Math.round`
followed by division by 10 gives back exactly `22 + diff/10`. -/
lemma jsRound_tenths (h c : Nat) :
    ((jsRound ((22 + ((h : ℚ) - (c : ℚ)) * 0.1) * 10) : ℚ)) / 10
      = 22 + ((h : ℚ) - (c : ℚ)) / 10 := by
  have harg : ((22 : ℚ) + ((h : ℚ) - (c : ℚ)) * 0.1) * 10
      = ((220 + (h : Int) - (c : Int) : Int) : ℚ) := by
    push_cast
    norm_num
    ring
  rw [harg]
  unfold jsRound
  have hfl : (((220 + (h : Int) - (c : Int) : Int) : ℚ) + 1 / 2 : ℚ)
      = 1 / 2 + ((220 + (h : Int) - (c : Int) : Int) : ℚ) := by ring
  rw [hfl, Int.floor_add_int]
  norm_num
  ring

/-- C2.  An accepted vote persists onto the zone exactly the temperature
`22.0 + 0.1 * (hotCount - coldCount)` (its own one-decimal rounding),
where the counts are the 10-minute recency counts of the post-append
ledger — a window that always contains the vote just appended, so the
counts are never both zero; with only hot votes in the window the value is
`22.0 + 0.1 * hotCount`. -/
theorem submitVote_temperature_formula (s : MemStorage) (body : RawVoteRequest)
    (sessionId connId voteId histId : String) (now : Int)
    (req : VoteRequest) (hparse : voteRequestParse body = some req)
    (zone : Zone) (hzone : getZone s req.zoneId = some zone) :
    ∃ counts : Nat × Nat,
      getRecentVoteCounts (postVote s body sessionId connId voteId histId now).2
          req.zoneId 10 now = counts ∧
      1 ≤ counts.1 + counts.2 ∧
      ∃ z, getZone (postVote s body sessionId connId voteId histId now).2 req.zoneId
          = some z ∧
        z.temperature = 22 + ((counts.1 : ℚ) - (counts.2 : ℚ)) / 10 := by
  have hs1z : ((updateConnection s sessionId connId now).2).zones = s.zones :=
    updateConnection_zones s sessionId connId now
  set s1 := (updateConnection s sessionId connId now).2 with hs1
  set s2 := (createVote s1 req voteId now).2 with hs2
  set c2 := getRecentVoteCounts s2 req.zoneId 10 now with hc2
  set temp := ((jsRound ((22 + (((c2.1 : ℚ)) - ((c2.2 : ℚ))) * 0.1) * 10) : ℚ)) / 10
    with htemp
  set s3 := (updateZoneTemperature s2 req.zoneId temp now).2 with hs3
  set s4 := (addTemperatureHistory s3 req.zoneId temp histId now).2 with hs4
  have hpost : (postVote s body sessionId connId voteId histId now).2 = s4 := by
    simp only [postVote, hparse, hzone]
  have hvotes : s4.votes = s2.votes := by
    rw [hs4, addTemperatureHistory_votes, hs3, updateZoneTemperature_votes]
  have hcounts : getRecentVoteCounts s4 req.zoneId 10 now = c2 :=
    getRecentVoteCounts_congr hvotes req.zoneId 10 now
  have hz2 : getZone s2 req.zoneId = some zone := by
    rw [getZone_congr s2 s (by rw [hs2, createVote_zones, hs1, hs1z])]
    exact hzone
  have hz4 : getZone s4 req.zoneId
      = some { zone with temperature := temp, lastUpdated := now } := by
    rw [getZone_congr s4 s3 (by rw [hs4, addTemperatureHistory_zones])]
    exact getZone_updateZoneTemperature s2 req.zoneId temp now zone hz2
  have hvmem : Vote.mk voteId req.zoneId req.voteType now ∈ s2.votes :=
    self_mem_mapSet s1.votes (fun v => v.id) voteId _
  have hvrecent : Vote.mk voteId req.zoneId req.voteType now
      ∈ getRecentVotesByZone s2 req.zoneId 10 now := by
    unfold getRecentVotesByZone
    refine List.mem_filter.mpr ⟨hvmem, ?_⟩
    simp only [decide_eq_true_eq]
    exact ⟨trivial, by omega⟩
  have hone : 1 ≤ c2.1 + c2.2 := by
    rcases hvt : req.voteType with _ | _
    · have hmem : Vote.mk voteId req.zoneId req.voteType now
          ∈ (getRecentVotesByZone s2 req.zoneId 10 now).filter
            (fun v => v.voteType = VoteType.hot) :=
        List.mem_filter.mpr ⟨hvrecent, by simp [hvt]⟩
      have hlen := List.length_pos_of_mem hmem
      have hc : 0 < c2.1 := by
        rw [hc2]
        exact hlen
      omega
    · have hmem : Vote.mk voteId req.zoneId req.voteType now
          ∈ (getRecentVotesByZone s2 req.zoneId 10 now).filter
            (fun v => v.voteType = VoteType.cold) :=
        List.mem_filter.mpr ⟨hvrecent, by simp [hvt]⟩
      have hlen := List.length_pos_of_mem hmem
      have hc : 0 < c2.2 := by
        rw [hc2]
        exact hlen
      omega
  refine ⟨c2, by rw [hpost, hcounts], hone, ?_⟩
  refine ⟨{ zone with temperature := temp, lastUpdated := now }, by rw [hpost, hz4], ?_⟩
  show temp = 22 + ((c2.1 : ℚ) - (c2.2 : ℚ)) / 10
  rw [htemp]
  exact jsRound_tenths c2.1 c2.2

/-- C2 witness: one hot vote on the seeded storage moves `zone-a` to
22.1 = 22 + (1 - 0)/10. -/
theorem submitVote_temperature_formula_witness :
    ∃ counts : Nat × Nat,
      getRecentVoteCounts (postVote (initialStorage 0)
          { zoneId := some "zone-a", voteType := some "hot" }
          "sess" "conn" "vote" "hist" 1000000).2 "zone-a" 10 1000000 = counts ∧
      1 ≤ counts.1 + counts.2 ∧
      ∃ z, getZone (postVote (initialStorage 0)
          { zoneId := some "zone-a", voteType := some "hot" }
          "sess" "conn" "vote" "hist" 1000000).2 "zone-a" = some z ∧
        z.temperature = 22 + ((counts.1 : ℚ) - (counts.2 : ℚ)) / 10 :=
  submitVote_temperature_formula (initialStorage 0)
    { zoneId := some "zone-a", voteType := some "hot" }
    "sess" "conn" "vote" "hist" 1000000
    { zoneId := "zone-a", voteType := VoteType.hot } (by decide)
    { id := "zone-a", name := "1F Zone A", temperature := 21.8,
      hotVotes := 0, coldVotes := 0, activeVoters := 0, lastUpdated := 0 } rfl

/-! ### C7: the connection sweep -/

lemma mem_foldl_mapDelete (ks : List String) (l : List ActiveConnection)
    (c : ActiveConnection) :
    c ∈ ks.foldl (fun acc id => mapDelete acc (fun x => x.id) id) l ↔
      c ∈ l ∧ c.id ∉ ks := by
  induction ks generalizing l with
  | nil => simp
  | cons k ks ih =>
    rw [List.foldl_cons, ih]
    simp only [mapDelete, List.mem_filter, Bool.not_eq_true', decide_eq_false_iff_not,
      List.mem_cons]
    tauto

/-- C7.  The sweep removes exactly the records whose `lastSeen` is strictly
older than `now - staleMinutes`, and retains every other record. -/
theorem cleanup_removes_exactly_stale (s : MemStorage) (minutes now : Int)
    (hids : (s.activeConnections.map (fun c => c.id)).Nodup)
    (c : ActiveConnection) :
    c ∈ (cleanupOldConnections s minutes now).activeConnections ↔
      c ∈ s.activeConnections ∧ ¬(c.lastSeen < now - minutes * 60000) := by
  show c ∈ ((s.activeConnections.filter
        (fun c => c.lastSeen < now - minutes * 60000)).map (fun c => c.id)).foldl
      (fun acc id => mapDelete acc (fun x => x.id) id) s.activeConnections ↔ _
  rw [mem_foldl_mapDelete]
  constructor
  · rintro ⟨hc, hid⟩
    refine ⟨hc, fun hlt => hid ?_⟩
    exact List.mem_map.mpr ⟨c, List.mem_filter.mpr ⟨hc, by simpa using hlt⟩, rfl⟩
  · rintro ⟨hc, hstale⟩
    refine ⟨hc, fun hid => ?_⟩
    rcases List.mem_map.mp hid with ⟨c', hc', hcid⟩
    rcases List.mem_filter.mp hc' with ⟨hcl, hclt⟩
    have hcc : c' = c := List.inj_on_of_nodup_map hids hcl hc hcid
    rw [hcc] at hclt
    exact hstale (by simpa using hclt)

/-- A one-record store for exercising the sweep boundary. -/
def sweepDemo : MemStorage :=
  { zones := [], votes := [], temperatureHistory := [],
    activeConnections := [ActiveConnection.mk "c1" "s1" 0] }

/-- C7 witness: a session touched at T = 0 and swept with `staleMinutes = 5`
is removed at T+6min and retained at T+4min. -/
theorem cleanup_removes_exactly_stale_witness :
    ActiveConnection.mk "c1" "s1" 0 ∉ (cleanupOldConnections sweepDemo 5 360000).activeConnections ∧
    ActiveConnection.mk "c1" "s1" 0 ∈ (cleanupOldConnections sweepDemo 5 240000).activeConnections := by
  constructor
  · intro h
    have h2 := (cleanup_removes_exactly_stale sweepDemo 5 360000 (by decide)
      (ActiveConnection.mk "c1" "s1" 0)).mp h
    exact h2.2 (by decide)
  · exact (cleanup_removes_exactly_stale sweepDemo 5 240000 (by decide)
      (ActiveConnection.mk "c1" "s1" 0)).mpr ⟨by decide, by decide⟩

/-! ### C6: at most one live connection record per session id -/

/-- C6.  `updateConnection` preserves uniqueness of both map keys and
session ids, and when a record with the requested `sessionId` already
exists it refreshes that record in place: the returned record keeps the
existing id, the record count does not grow, and the stored key set is
unchanged — no duplicate is inserted. -/
theorem updateConnection_upsert_in_place (s : MemStorage) (sessionId freshId : String)
    (now : Int)
    (hid : (s.activeConnections.map (fun c => c.id)).Nodup)
    (hsess : (s.activeConnections.map (fun c => c.sessionId)).Nodup)
    (hfresh : freshId ∉ s.activeConnections.map (fun c => c.id)) :
    ((((updateConnection s sessionId freshId now).2).activeConnections.map
        (fun c => c.id)).Nodup ∧
      (((updateConnection s sessionId freshId now).2).activeConnections.map
        (fun c => c.sessionId)).Nodup) ∧
    ∀ existing,
      s.activeConnections.find? (fun c => c.sessionId = sessionId) = some existing →
        ((updateConnection s sessionId freshId now).2).activeConnections.length
            = s.activeConnections.length ∧
        (updateConnection s sessionId freshId now).1.id = existing.id ∧
        ((updateConnection s sessionId freshId now).2).activeConnections.map
            (fun c => c.id)
          = s.activeConnections.map (fun c => c.id) := by
  rcases hfind : s.activeConnections.find? (fun c => c.sessionId = sessionId)
    with _ | existing
  · have hany : s.activeConnections.any (fun x => x.id = freshId) = false := by
      simp only [List.any_eq_false, decide_eq_true_eq]
      intro x hx hxid
      exact hfresh (List.mem_map.mpr ⟨x, hx, hxid⟩)
    have hconns : ((updateConnection s sessionId freshId now).2).activeConnections
        = s.activeConnections ++ [ActiveConnection.mk freshId sessionId now] := by
      simp only [updateConnection, hfind, mapSet, hany]
      rfl
    have hsid : sessionId ∉ s.activeConnections.map (fun c => c.sessionId) := by
      intro hmem
      rcases List.mem_map.mp hmem with ⟨x, hx, hxs⟩
      have := List.find?_eq_none.mp hfind x hx
      simp [hxs] at this
    refine ⟨⟨?_, ?_⟩, ?_⟩
    · rw [hconns, List.map_append, List.nodup_append]
      exact ⟨hid, List.nodup_singleton _, by simpa [List.disjoint_singleton] using hfresh⟩
    · rw [hconns, List.map_append, List.nodup_append]
      exact ⟨hsess, List.nodup_singleton _, by simpa [List.disjoint_singleton] using hsid⟩
    · intro existing hx
      rw [hfind] at hx
      cases hx
  · have hmem : existing ∈ s.activeConnections := List.mem_of_find?_eq_some hfind
    have hany : s.activeConnections.any (fun x => x.id = existing.id) = true :=
      List.any_eq_true.mpr ⟨existing, hmem, by simp⟩
    have hconns : ((updateConnection s sessionId freshId now).2).activeConnections
        = s.activeConnections.map (fun x =>
            if x.id = existing.id then { existing with lastSeen := now } else x) := by
      simp only [updateConnection, hfind, mapSet, hany]
      rfl
    have hmapid : ((updateConnection s sessionId freshId now).2).activeConnections.map
        (fun c => c.id) = s.activeConnections.map (fun c => c.id) := by
      rw [hconns, List.map_map]
      refine List.map_congr_left ?_
      intro x _
      by_cases hxe : x.id = existing.id <;> simp [Function.comp, hxe]
    have hmapsess : ((updateConnection s sessionId freshId now).2).activeConnections.map
        (fun c => c.sessionId) = s.activeConnections.map (fun c => c.sessionId) := by
      rw [hconns, List.map_map]
      refine List.map_congr_left ?_
      intro x hx
      by_cases hxe : x.id = existing.id
      · have hxex : x = existing := List.inj_on_of_nodup_map hid hx hmem hxe
        simp [Function.comp, hxe, hxex]
      · simp [Function.comp, hxe]
    refine ⟨⟨by rw [hmapid]; exact hid, by rw [hmapsess]; exact hsess⟩, ?_⟩
    intro existing' hx
    rw [hfind] at hx
    cases hx
    refine ⟨?_, ?_, hmapid⟩
    · rw [hconns, List.length_map]
    · simp only [updateConnection, hfind]

/-- A one-record store for exercising the upsert. -/
def connDemo : MemStorage :=
  { zones := [], votes := [], temperatureHistory := [],
    activeConnections := [ActiveConnection.mk "c1" "s1" 0] }

/-- C6 witness: touching the already-present session `s1` again. -/
theorem updateConnection_upsert_in_place_witness :
    ((((updateConnection connDemo "s1" "c2" 100).2).activeConnections.map
        (fun c => c.id)).Nodup ∧
      (((updateConnection connDemo "s1" "c2" 100).2).activeConnections.map
        (fun c => c.sessionId)).Nodup) ∧
    ∀ existing,
      connDemo.activeConnections.find? (fun c => c.sessionId = "s1") = some existing →
        ((updateConnection connDemo "s1" "c2" 100).2).activeConnections.length
            = connDemo.activeConnections.length ∧
        (updateConnection connDemo "s1" "c2" 100).1.id = existing.id ∧
        ((updateConnection connDemo "s1" "c2" 100).2).activeConnections.map
            (fun c => c.id)
          = connDemo.activeConnections.map (fun c => c.id) :=
  updateConnection_upsert_in_place connDemo "s1" "c2" 100 (by decide) (by decide) (by decide)

/-! ### C5: what a `GET /api/zones` read actually writes -/

/-- A store with one zone whose stored counters are stale (0 hot votes
stored, 1 recent hot vote in the ledger). -/
def staleCountStorage : MemStorage :=
  { zones := [Zone.mk "zone-x" "Zone X" 22 0 0 0 0],
    votes := [Vote.mk "v1" "zone-x" VoteType.hot 1000],
    temperatureHistory := [], activeConnections := [] }

/-- C5 counterexample: after a `GET /api/zones` read, the stored
`hotVotes` of `zone-x` is still 0 while the 10-minute recomputation gives
1 — the read does not overwrite the stored fields. -/
theorem getZones_read_counterexample :
    ¬((getZone ((getZonesHandler staleCountStorage "sess" "conn" 1000).2) "zone-x").map
        (fun z => z.hotVotes)
      = some ((getRecentVoteCounts ((getZonesHandler staleCountStorage "sess" "conn" 1000).2)
          "zone-x" 10 1000).1 : Int)) := by
  decide

/-- C5 amended: the `GET /api/zones` handler computes the 10-minute
recency counts only into the response views, which carry exactly those
counts zone by zone; the stored zones (and the ledger) are left completely
unchanged — `updateZoneVotes` is never invoked on the read path, so the
stored `hotVotes`/`coldVotes` are not overwritten. -/
theorem getZones_read_view_only (s : MemStorage) (sessionId connId : String) (now : Int) :
    ((getZonesHandler s sessionId connId now).2).zones = s.zones ∧
    ((getZonesHandler s sessionId connId now).2).votes = s.votes ∧
    (getZonesHandler s sessionId connId now).1
      = s.zones.map (fun zone =>
          { zone with
            hotVotes := ((getRecentVoteCounts s zone.id 10 now).1 : Int),
            coldVotes := ((getRecentVoteCounts s zone.id 10 now).2 : Int) }) := by
  refine ⟨updateConnection_zones s sessionId connId now,
    updateConnection_votes s sessionId connId now, ?_⟩
  show ((updateConnection s sessionId connId now).2).zones.map _ = _
  rw [updateConnection_zones]
  refine List.map_congr_left ?_
  intro zone _
  rw [getRecentVoteCounts_congr (updateConnection_votes s sessionId connId now) zone.id 10 now]

end TempVote
